import Mathlib

/-!
# dfsch-postgresql: handle lifecycle of `src/postgres.c`

A shallow embedding of the PostgreSQL binding for the dfsch interpreter.
The native client library (libpq) and the interpreter's object system are
external collaborators; they appear here as small executable models of the
calls that `postgres.c` makes on them.  Every operation of the module is a
pure function returning the outcome of the call together with the argument
object as the call leaves it (the handle is mutated in place in C).
-/

namespace DfschPostgres

/-! ## Machine integers -/

/-- Largest value of a C `int`. -/
def INT_MAX : Int := 2147483647

/-- Two's-complement reduction of an integer to the range of a C `int`. -/
def wrapInt (x : Int) : Int := (x + 2147483648) % 4294967296 - 2147483648

/-! ## The native client library, as far as the module calls it -/

/-- Result status codes of libpq that `pg_make_result` switches on. -/
inductive ExecStatusType where
  | PGRES_EMPTY_QUERY
  | PGRES_COMMAND_OK
  | PGRES_TUPLES_OK
  | PGRES_COPY_OUT
  | PGRES_COPY_IN
  | PGRES_BAD_RESPONSE
  | PGRES_NONFATAL_ERROR
  | PGRES_FATAL_ERROR
  deriving DecidableEq, Repr

/-- Connection status codes of libpq that `pg_connect` tests. -/
inductive ConnStatusType where
  | CONNECTION_OK
  | CONNECTION_BAD
  deriving DecidableEq, Repr

/-- A native tuple set.  `cleared` counts the `PQclear` calls made on it. -/
structure PGresult where
  status : ExecStatusType
  errorMessage : String
  fnames : List String
  tuples : List (List (Option String))
  cleared : Nat
  deriving DecidableEq, Repr

/-- A native session.  `finished` counts the `PQfinish` calls made on it. -/
structure PGconn where
  status : ConnStatusType
  errorMessage : String
  finished : Nat
  deriving DecidableEq, Repr

def PQresultStatus (res : PGresult) : ExecStatusType := res.status

def PQresultErrorMessage (res : PGresult) : String := res.errorMessage

def PQntuples (res : PGresult) : Int := res.tuples.length

def PQnfields (res : PGresult) : Int := res.fnames.length

def PQclear (res : PGresult) : PGresult := { res with cleared := res.cleared + 1 }

def PQfinish (conn : PGconn) : PGconn := { conn with finished := conn.finished + 1 }

def PQstatus (conn : PGconn) : ConnStatusType := conn.status

def PQerrorMessage (conn : PGconn) : String := conn.errorMessage

/-- Stored cell at a position, `none` when the position is outside the
tuple set or the cell is SQL NULL. -/
def pgCell (res : PGresult) (tup field : Int) : Option String :=
  if tup < 0 ∨ field < 0 then none
  else
    match res.tuples[tup.toNat]? with
    | none => none
    | some r =>
      match r[field.toNat]? with
      | some (some s) => some s
      | _ => none

/-- libpq reports a cell outside the tuple set as null. -/
def PQgetisnull (res : PGresult) (tup field : Int) : Bool :=
  (pgCell res tup field).isNone

/-- Text of a cell; the empty string for a null cell. -/
def PQgetvalue (res : PGresult) (tup field : Int) : String :=
  (pgCell res tup field).getD ""

def PQfname (res : PGresult) (field : Int) : String :=
  if field < 0 then "" else res.fnames.getD field.toNat ""

/-! ## Handles and interpreter objects -/

/-- Connection handle (`struct pg_conn_t`); the `open` flag only ever holds
0 or 1 and is kept as a boolean. -/
structure pg_conn_t where
  conn : PGconn
  open_ : Bool
  deriving DecidableEq, Repr

/-- Result handle (`struct pg_result_t`). -/
structure pg_result_t where
  res : PGresult
  open_ : Bool
  row : Int
  deriving DecidableEq, Repr

/-- Interpreter objects that the module receives or builds.  `null` is the C
`NULL` pointer (the interpreter's empty value), `symTrue` the symbol returned
by `dfsch_sym_true`. -/
inductive Obj where
  | null
  | symTrue
  | str (s : String)
  | num (n : Int)
  | sym (name : String)
  | list (xs : List Obj)
  | vector (xs : List Obj)
  | hash (kv : List (String × Obj))
  | conn (c : pg_conn_t)
  | result (r : pg_result_t)

/-- A signalled error: `dfsch_error(tag, payload)` does not return. -/
structure DfschError where
  tag : String
  payload : Obj

/-- Outcome of a primitive: the returned object or the signalled error. -/
abbrev Outcome := Except DfschError Obj

def dfsch_sym_true : Obj := Obj.symTrue

def dfsch_make_string_cstr (s : String) : Obj := Obj.str s

def dfsch_make_number_from_long (n : Int) : Obj := Obj.num n

def dfsch_compare_symbol (o : Obj) (name : String) : Bool :=
  match o with
  | Obj.sym s => s == name
  | _ => false

def dfsch_make_vector (len : Nat) (fill : Obj) : List Obj := List.replicate len fill

def dfsch_vector_set (vec : List Obj) (i : Nat) (v : Obj) : List Obj := vec.set i v

/-- Store a binding in a symbol-keyed table, replacing the binding of an
equal key. -/
def dfsch_hash_set (h : List (String × Obj)) (k : String) (v : Obj) : List (String × Obj) :=
  match h with
  | [] => [(k, v)]
  | (k1, v1) :: t => if k1 = k then (k, v) :: t else (k1, v1) :: dfsch_hash_set t k v

def dfsch_hash_ref (h : List (String × Obj)) (k : String) : Option Obj :=
  match h with
  | [] => none
  | (k1, v1) :: t => if k1 = k then some v1 else dfsch_hash_ref t k

/-! ## Argument converters -/

/-- Converter `pg_conn`: type check, then open-flag check. -/
def pg_conn (conn : Obj) : Except DfschError pg_conn_t :=
  match conn with
  | Obj.conn c =>
    if !c.open_ then Except.error ⟨"postgres:connection-already-closed", conn⟩
    else Except.ok c
  | _ => Except.error ⟨"postgres:not-a-connection", conn⟩

/-- Converter `pg_result`: type check, then open-flag check (with the tags
the source uses). -/
def pg_result (res : Obj) : Except DfschError pg_result_t :=
  match res with
  | Obj.result r =>
    if !r.open_ then Except.error ⟨"postgres:connection-already-closed", res⟩
    else Except.ok r
  | _ => Except.error ⟨"postgres:not-a-connection", res⟩

/-! ## Finalizers -/

/-- Finalizer of a connection handle: releases the session if still open. -/
def conn_finalizer (conn : pg_conn_t) : PGconn :=
  if conn.open_ then PQfinish conn.conn else conn.conn

/-- Finalizer of a result handle: releases the tuple set if still open. -/
def result_finalizer (res : pg_result_t) : PGresult :=
  if res.open_ then PQclear res.res else res.res

/-! ## Connections and query execution -/

/-- Body of `pg_make_result`: returns the outcome and the native result
object as the call leaves it. -/
def pg_make_result (res : Option PGresult) (statement : String) : Outcome × Option PGresult :=
  match res with
  | none =>
    (Except.error ⟨"postgres:could-not-create-result-object", dfsch_make_string_cstr statement⟩,
      none)
  | some res =>
    match PQresultStatus res with
    | ExecStatusType.PGRES_EMPTY_QUERY => (Except.ok Obj.null, some (PQclear res))
    | ExecStatusType.PGRES_COMMAND_OK => (Except.ok Obj.null, some (PQclear res))
    | ExecStatusType.PGRES_COPY_OUT =>
      (Except.error ⟨"postgres:copy-not-supported", dfsch_make_string_cstr statement⟩,
        some (PQclear res))
    | ExecStatusType.PGRES_COPY_IN =>
      (Except.error ⟨"postgres:copy-not-supported", dfsch_make_string_cstr statement⟩,
        some (PQclear res))
    | ExecStatusType.PGRES_TUPLES_OK =>
      (Except.ok (Obj.result { res := res, open_ := true, row := -1 }), some res)
    | _ =>
      let err := dfsch_make_string_cstr (PQresultErrorMessage res)
      (Except.error ⟨"postgres:error", Obj.list [err, dfsch_make_string_cstr statement]⟩,
        some (PQclear res))

/-- Primitive `pg:connect`; `PQconnectdb` is the native call. -/
def pg_connect (conninfo : String) (PQconnectdb : String → PGconn) : Outcome × PGconn :=
  let c := PQconnectdb conninfo
  if PQstatus c = ConnStatusType.CONNECTION_BAD then
    let err_msg := dfsch_make_string_cstr (PQerrorMessage c)
    (Except.error ⟨"postgres:cannot-connect", err_msg⟩, PQfinish c)
  else
    (Except.ok (Obj.conn { conn := c, open_ := true }), c)

/-- Primitive `pg:finish`: outcome and the argument after the call. -/
def pg_finish (arg : Obj) : Outcome × Obj :=
  match pg_conn arg with
  | Except.error e => (Except.error e, arg)
  | Except.ok conn =>
    let conn := { conn with open_ := false }
    let conn := { conn with conn := PQfinish conn.conn }
    (Except.ok Obj.null, Obj.conn conn)

/-- Primitive `pg:exec`; `PQexec` is the native call. -/
def pg_exec (arg : Obj) (command : String) (PQexec : PGconn → String → Option PGresult) :
    Outcome × Option PGresult :=
  match pg_conn arg with
  | Except.error e => (Except.error e, none)
  | Except.ok conn => pg_make_result (PQexec conn.conn command) command

/-! ## Row builders -/

/-- The `for` loop of `get_row_as_vector` after `n` iterations, on a vector
created with `len` empty slots: a non-null field stores its text at its
index. -/
def vectorLoop (res : PGresult) (row : Int) (len n : Nat) : List Obj :=
  (List.range n).foldl
    (fun vec (i : Nat) =>
      if !PQgetisnull res row i then
        dfsch_vector_set vec i (dfsch_make_string_cstr (PQgetvalue res row i))
      else vec)
    (dfsch_make_vector len Obj.null)

/-- Builder `get_row_as_vector`: absence before the first row, otherwise a
vector of the field count, filled by the loop over all fields. -/
def get_row_as_vector (res : pg_result_t) : Obj :=
  if res.row < 0 then Obj.null
  else
    let len := (PQnfields res.res).toNat
    Obj.vector (vectorLoop res.res res.row len len)

/-- The `for` loop of `get_row_as_hash` after `n` iterations, on a fresh
table: every field stores a binding under its name, its text or `NULL`. -/
def hashLoop (res : PGresult) (row : Int) (n : Nat) : List (String × Obj) :=
  (List.range n).foldl
    (fun hash (i : Nat) =>
      if !PQgetisnull res row i then
        dfsch_hash_set hash (PQfname res i) (dfsch_make_string_cstr (PQgetvalue res row i))
      else
        dfsch_hash_set hash (PQfname res i) Obj.null)
    []

/-- Builder `get_row_as_hash`: absence before the first row, otherwise the
table filled by the loop over all fields. -/
def get_row_as_hash (res : pg_result_t) : Obj :=
  if res.row < 0 then Obj.null
  else
    let len := (PQnfields res.res).toNat
    Obj.hash (hashLoop res.res res.row len)

/-! ## Result primitives

Each takes the handle argument as an object, converts it with `pg_result`
(what `PG_RESULT_ARG` expands to) and returns the outcome together with the
argument object after the call. -/

/-- Primitive `pg:step`. -/
def pg_step (arg : Obj) (format : Obj) : Outcome × Obj :=
  match pg_result arg with
  | Except.error e => (Except.error e, arg)
  | Except.ok res =>
    let res := { res with row := wrapInt (res.row + 1) }
    if res.row < PQntuples res.res then
      match format with
      | Obj.null => (Except.ok dfsch_sym_true, Obj.result res)
      | _ =>
        if dfsch_compare_symbol format "vector" then
          (Except.ok (get_row_as_vector res), Obj.result res)
        else if dfsch_compare_symbol format "hash" then
          (Except.ok (get_row_as_hash res), Obj.result res)
        else
          (Except.error ⟨"postgres:unknown-format", format⟩, Obj.result res)
    else
      let res := { res with open_ := false }
      let res := { res with res := PQclear res.res }
      (Except.ok Obj.null, Obj.result res)

/-- Primitive `pg:get-row`. -/
def pg_get_row (arg : Obj) (format : Obj) : Outcome × Obj :=
  match pg_result arg with
  | Except.error e => (Except.error e, arg)
  | Except.ok res =>
    match format with
    | Obj.null => (Except.ok (get_row_as_vector res), arg)
    | _ =>
      if dfsch_compare_symbol format "vector" then
        (Except.ok (get_row_as_vector res), arg)
      else if dfsch_compare_symbol format "hash" then
        (Except.ok (get_row_as_hash res), arg)
      else
        (Except.error ⟨"postgres:unknown-format", format⟩, arg)

/-- Primitive `pg:get-names`. -/
def pg_get_names (arg : Obj) : Outcome × Obj :=
  match pg_result arg with
  | Except.error e => (Except.error e, arg)
  | Except.ok res =>
    if res.row < 0 then (Except.ok Obj.null, arg)
    else
      let len := (PQnfields res.res).toNat
      let vec := dfsch_make_vector len Obj.null
      (Except.ok (Obj.vector ((List.range len).foldl
        (fun vec (i : Nat) =>
          dfsch_vector_set vec i (dfsch_make_string_cstr (PQfname res.res i)))
        vec)), arg)

/-- Function `pg_get_value`.  The interpreter hands over `long` arguments,
which the source stores in `int` variables; an absent row argument defaults
to the cursor. -/
def pg_get_value (arg : Obj) (column : Int) (row : Option Int) : Outcome × Obj :=
  match pg_result arg with
  | Except.error e => (Except.error e, arg)
  | Except.ok res =>
    let column := wrapInt column
    let row := match row with
      | some r => wrapInt r
      | none => res.row
    if row < 0 ∨ row > PQntuples res.res then
      (Except.error ⟨"postgres:row-number-out-of-range",
        Obj.list [dfsch_make_number_from_long row,
                  dfsch_make_number_from_long (PQntuples res.res)]⟩, arg)
    else if column < 0 ∨ column > PQnfields res.res then
      (Except.error ⟨"postgres:column-number-out-of-range",
        Obj.list [dfsch_make_number_from_long row,
                  dfsch_make_number_from_long (PQnfields res.res)]⟩, arg)
    else if PQgetisnull res.res row column then (Except.ok Obj.null, arg)
    else (Except.ok (dfsch_make_string_cstr (PQgetvalue res.res row column)), arg)

/-- Primitive `pg:close-result`. -/
def pg_close_result (arg : Obj) : Outcome × Obj :=
  match pg_result arg with
  | Except.error e => (Except.error e, arg)
  | Except.ok res =>
    let res := { res with open_ := false }
    let res := { res with res := PQclear res.res }
    (Except.ok Obj.null, Obj.result res)

/-! ## Registration -/

/-- The C functions of the module that have the primitive signature. -/
inductive Primitive where
  | pg_connect
  | pg_finish
  | pg_exec
  | pg_step
  | pg_get_row
  | pg_get_names
  | pg_get_value
  | pg_close_result
  deriving DecidableEq, Repr

/-- What a global name of the host environment is bound to. -/
inductive Binding where
  | pg_conn_type
  | pg_result_type
  | primitive (p : Primitive)
  deriving DecidableEq, Repr

/-- Host environment: provided module names and global definitions. -/
structure Env where
  provided : List String
  globals : List (String × Binding)
  deriving DecidableEq, Repr

def dfsch_provide (env : Env) (name : String) : Env :=
  { env with provided := name :: env.provided }

def dfsch_define_cstr (env : Env) (name : String) (value : Binding) : Env :=
  { env with globals := (name, value) :: env.globals.filter (fun b => b.1 != name) }

def dfsch_make_primitive (p : Primitive) : Binding := Binding.primitive p

/-- Routine `dfsch_module_postgres_register`. -/
def dfsch_module_postgres_register (env : Env) : Env :=
  let env := dfsch_provide env "postgres"
  let env := dfsch_define_cstr env "pg:<connection>" Binding.pg_conn_type
  let env := dfsch_define_cstr env "pg:<result>" Binding.pg_result_type
  let env := dfsch_define_cstr env "pg:connect" (dfsch_make_primitive Primitive.pg_connect)
  let env := dfsch_define_cstr env "pg:finish" (dfsch_make_primitive Primitive.pg_finish)
  let env := dfsch_define_cstr env "pg:exec" (dfsch_make_primitive Primitive.pg_exec)
  let env := dfsch_define_cstr env "pg:step" (dfsch_make_primitive Primitive.pg_step)
  let env := dfsch_define_cstr env "pg:close-result"
    (dfsch_make_primitive Primitive.pg_close_result)
  let env := dfsch_define_cstr env "pg:get-row" (dfsch_make_primitive Primitive.pg_get_row)
  let env := dfsch_define_cstr env "pg:get-names" (dfsch_make_primitive Primitive.pg_get_names)
  env

/-- The primitives a caller can reach through the environment. -/
def reachablePrimitives (env : Env) : List Primitive :=
  env.globals.filterMap (fun b =>
    match b.2 with
    | Binding.primitive p => some p
    | _ => none)

/-! ## Call sequences on a result handle -/

/-- A call a holder of a result handle can make on it. -/
inductive ResultCall where
  | step (format : Obj)
  | get_row (format : Obj)
  | get_names
  | get_value (column : Int) (row : Option Int)
  | close_result

/-- Perform one call on the handle object. -/
def applyCall (c : ResultCall) (arg : Obj) : Outcome × Obj :=
  match c with
  | ResultCall.step format => pg_step arg format
  | ResultCall.get_row format => pg_get_row arg format
  | ResultCall.get_names => pg_get_names arg
  | ResultCall.get_value column row => pg_get_value arg column row
  | ResultCall.close_result => pg_close_result arg

/-- The handle object after a sequence of calls, whatever their outcomes. -/
def runCalls (cs : List ResultCall) (arg : Obj) : Obj :=
  cs.foldl (fun o c => (applyCall c o).2) arg

/-- The handle object after `k` advance calls without a shape. -/
def stepN (k : Nat) (arg : Obj) : Obj :=
  runCalls (List.replicate k (ResultCall.step Obj.null)) arg

/-- The handle that `pg_make_result` creates for a tuple set. -/
def freshResult (res : PGresult) : pg_result_t :=
  { res := res, open_ := true, row := -1 }

/-- A two-row, two-column tuple set used in the concrete checks. -/
def sampleResult : PGresult :=
  { status := ExecStatusType.PGRES_TUPLES_OK
    errorMessage := ""
    fnames := ["id", "name"]
    tuples := [[some "1", some "ann"], [some "2", none]]
    cleared := 0 }

/-- The sample tuple set wrapped in an open handle whose cursor is on the
second row. -/
def sampleHandle : pg_result_t :=
  { res := sampleResult, open_ := true, row := 1 }

/-- The sample handle after exhaustion: closed, tuple set released once. -/
def closedHandle : pg_result_t :=
  { res := PQclear sampleResult, open_ := false, row := 2 }

/-- A one-row tuple set whose two fields carry the same name (as in
`SELECT NULL AS a, 'x' AS a`): the first field is null, the second is not. -/
def sameNameResult : PGresult :=
  { status := ExecStatusType.PGRES_TUPLES_OK
    errorMessage := ""
    fnames := ["a", "a"]
    tuples := [[none, some "x"]]
    cleared := 0 }

/-- The same-name tuple set wrapped in an open handle with the cursor on its
row. -/
def sameNameHandle : pg_result_t :=
  { res := sameNameResult, open_ := true, row := 0 }

/-- An open connection handle used in the concrete checks. -/
def sampleConn : pg_conn_t :=
  { conn := { status := ConnStatusType.CONNECTION_OK, errorMessage := "", finished := 0 }
    open_ := true }

/-- A native result without tuples, of a given status and diagnostic. -/
def emptyResult (st : ExecStatusType) (msg : String) : PGresult :=
  { status := st, errorMessage := msg, fnames := [], tuples := [], cleared := 0 }

/-- A stand-in for the native `PQexec` used in the concrete checks. -/
def sampleExec (_conn : PGconn) (command : String) : Option PGresult :=
  if command = "SELECT id, name FROM t" then some sampleResult
  else if command = "" then some (emptyResult ExecStatusType.PGRES_EMPTY_QUERY "")
  else if command = "CREATE TABLE t(x int)" then
    some (emptyResult ExecStatusType.PGRES_COMMAND_OK "")
  else if command = "COPY t TO STDOUT" then some (emptyResult ExecStatusType.PGRES_COPY_OUT "")
  else if command = "SELECT * FROM nonexistent_table" then
    some (emptyResult ExecStatusType.PGRES_FATAL_ERROR "ERROR: relation does not exist")
  else none

/-! ## Connection lifecycle -/

/-- C4: on an open connection handle the first close returns absence and
marks the handle closed after one native release; a second close on the same
handle fails with "connection already closed", leaves the handle as it was,
and so makes no further native release. -/
theorem pg_finish_twice (c : pg_conn_t) (hopen : c.open_ = true) :
    pg_finish (Obj.conn c)
      = (Except.ok Obj.null, Obj.conn { conn := PQfinish c.conn, open_ := false }) ∧
    pg_finish (pg_finish (Obj.conn c)).2
      = (Except.error ⟨"postgres:connection-already-closed",
            Obj.conn { conn := PQfinish c.conn, open_ := false }⟩,
          Obj.conn { conn := PQfinish c.conn, open_ := false }) ∧
    (PQfinish c.conn).finished = c.conn.finished + 1 := by
  refine ⟨?_, ?_, rfl⟩
  · simp [pg_finish, pg_conn, hopen]
  · simp [pg_finish, pg_conn, hopen]

theorem pg_finish_twice_witness :
    sampleConn.open_ = true ∧
    pg_finish (pg_finish (Obj.conn sampleConn)).2
      = (Except.error ⟨"postgres:connection-already-closed",
            Obj.conn { conn := PQfinish sampleConn.conn, open_ := false }⟩,
          Obj.conn { conn := PQfinish sampleConn.conn, open_ := false }) :=
  ⟨rfl, (pg_finish_twice sampleConn rfl).2.1⟩

/-! ## Query execution -/

/-- C5: on an open connection the outcome of execute is `pg_make_result` of
the native result and the command text: no result object gives the
result-creation failure with the command text; empty-query and command-ok
give absence; tuples-ok gives an open handle with cursor -1 around that tuple
set, which is not released; copy-in and copy-out give the unsupported
failure; every other status gives the query error carrying the native
diagnostic followed by the command text; and outside tuples-ok the tuple set
is released exactly once. -/
theorem pg_exec_outcome (c : pg_conn_t) (hopen : c.open_ = true) (command : String)
    (PQexec : PGconn → String → Option PGresult) :
    pg_exec (Obj.conn c) command PQexec = pg_make_result (PQexec c.conn command) command ∧
    (PQexec c.conn command = none →
      pg_exec (Obj.conn c) command PQexec
        = (Except.error ⟨"postgres:could-not-create-result-object", Obj.str command⟩, none)) ∧
    (∀ res, PQexec c.conn command = some res →
      (res.status = ExecStatusType.PGRES_EMPTY_QUERY ∨
          res.status = ExecStatusType.PGRES_COMMAND_OK →
        pg_exec (Obj.conn c) command PQexec = (Except.ok Obj.null, some (PQclear res))) ∧
      (res.status = ExecStatusType.PGRES_TUPLES_OK →
        pg_exec (Obj.conn c) command PQexec
          = (Except.ok (Obj.result { res := res, open_ := true, row := -1 }), some res)) ∧
      (res.status = ExecStatusType.PGRES_COPY_IN ∨
          res.status = ExecStatusType.PGRES_COPY_OUT →
        pg_exec (Obj.conn c) command PQexec
          = (Except.error ⟨"postgres:copy-not-supported", Obj.str command⟩,
              some (PQclear res))) ∧
      (res.status ≠ ExecStatusType.PGRES_EMPTY_QUERY →
        res.status ≠ ExecStatusType.PGRES_COMMAND_OK →
        res.status ≠ ExecStatusType.PGRES_TUPLES_OK →
        res.status ≠ ExecStatusType.PGRES_COPY_IN →
        res.status ≠ ExecStatusType.PGRES_COPY_OUT →
        pg_exec (Obj.conn c) command PQexec
          = (Except.error ⟨"postgres:error",
                Obj.list [Obj.str res.errorMessage, Obj.str command]⟩,
              some (PQclear res))) ∧
      (res.status ≠ ExecStatusType.PGRES_TUPLES_OK →
        ∃ res2, (pg_exec (Obj.conn c) command PQexec).2 = some res2 ∧
          res2.cleared = res.cleared + 1)) := by
  have hexec : pg_exec (Obj.conn c) command PQexec
      = pg_make_result (PQexec c.conn command) command := by
    simp [pg_exec, pg_conn, hopen]
  refine ⟨hexec, ?_, ?_⟩
  · intro hnone
    rw [hexec, hnone]
    rfl
  · intro res hsome
    rw [hexec, hsome]
    refine ⟨?_, ?_, ?_, ?_, ?_⟩
    · rintro (h | h) <;> simp [pg_make_result, PQresultStatus, h]
    · intro h
      simp [pg_make_result, PQresultStatus, h]
    · rintro (h | h) <;> simp [pg_make_result, PQresultStatus, h, dfsch_make_string_cstr]
    · intro h1 h2 h3 h4 h5
      cases hs : res.status <;>
        simp_all [pg_make_result, PQresultStatus, PQresultErrorMessage, dfsch_make_string_cstr]
    · intro h
      cases hs : res.status <;> simp_all [pg_make_result, PQresultStatus, PQclear]

theorem pg_exec_outcome_witness :
    sampleConn.open_ = true ∧
    pg_exec (Obj.conn sampleConn) "no such command" sampleExec
      = (Except.error ⟨"postgres:could-not-create-result-object",
          Obj.str "no such command"⟩, none) ∧
    pg_exec (Obj.conn sampleConn) "CREATE TABLE t(x int)" sampleExec
      = (Except.ok Obj.null,
          some (PQclear (emptyResult ExecStatusType.PGRES_COMMAND_OK ""))) ∧
    pg_exec (Obj.conn sampleConn) "SELECT id, name FROM t" sampleExec
      = (Except.ok (Obj.result { res := sampleResult, open_ := true, row := -1 }),
          some sampleResult) ∧
    pg_exec (Obj.conn sampleConn) "COPY t TO STDOUT" sampleExec
      = (Except.error ⟨"postgres:copy-not-supported", Obj.str "COPY t TO STDOUT"⟩,
          some (PQclear (emptyResult ExecStatusType.PGRES_COPY_OUT ""))) ∧
    pg_exec (Obj.conn sampleConn) "SELECT * FROM nonexistent_table" sampleExec
      = (Except.error ⟨"postgres:error",
            Obj.list [Obj.str "ERROR: relation does not exist",
                      Obj.str "SELECT * FROM nonexistent_table"]⟩,
          some (PQclear
            (emptyResult ExecStatusType.PGRES_FATAL_ERROR "ERROR: relation does not exist"))) :=
  ⟨rfl,
   (pg_exec_outcome sampleConn rfl "no such command" sampleExec).2.1 rfl,
   ((pg_exec_outcome sampleConn rfl "CREATE TABLE t(x int)" sampleExec).2.2
      (emptyResult ExecStatusType.PGRES_COMMAND_OK "") rfl).1 (Or.inr rfl),
   ((pg_exec_outcome sampleConn rfl "SELECT id, name FROM t" sampleExec).2.2
      sampleResult rfl).2.1 rfl,
   ((pg_exec_outcome sampleConn rfl "COPY t TO STDOUT" sampleExec).2.2
      (emptyResult ExecStatusType.PGRES_COPY_OUT "") rfl).2.2.1 (Or.inr rfl),
   ((pg_exec_outcome sampleConn rfl "SELECT * FROM nonexistent_table" sampleExec).2.2
      (emptyResult ExecStatusType.PGRES_FATAL_ERROR "ERROR: relation does not exist")
      rfl).2.2.2.1 (by decide) (by decide) (by decide) (by decide) (by decide)⟩

/-! ## Closing a result handle -/

/-- C7, as the claim states it, fails: on a handle already marked closed
`pg:close-result` signals "connection already closed", does not return
absence, and leaves the release count of the tuple set where it was. -/
theorem pg_close_result_closed_counterexample :
    pg_close_result (Obj.result closedHandle)
      = (Except.error ⟨"postgres:connection-already-closed", Obj.result closedHandle⟩,
          Obj.result closedHandle) ∧
    (pg_close_result (Obj.result closedHandle)).1 ≠ Except.ok Obj.null ∧
    closedHandle.res.cleared = 1 := by
  refine ⟨rfl, ?_, rfl⟩
  intro h
  cases h

/-- C7 amended: `pg:close-result` converts its argument with the same
open-flag check as every other result primitive.  On a closed handle it fails
with the use-after-close error and changes nothing (no second native
release); on an open handle it marks the handle closed, releases the tuple
set once and returns absence. -/
theorem pg_close_result_guarded (r : pg_result_t) :
    (r.open_ = false →
      pg_close_result (Obj.result r)
        = (Except.error ⟨"postgres:connection-already-closed", Obj.result r⟩,
            Obj.result r)) ∧
    (r.open_ = true →
      pg_close_result (Obj.result r)
        = (Except.ok Obj.null,
            Obj.result { res := PQclear r.res, open_ := false, row := r.row })) := by
  constructor
  · intro h
    simp [pg_close_result, pg_result, h]
  · intro h
    simp [pg_close_result, pg_result, h]

theorem pg_close_result_guarded_witness :
    closedHandle.open_ = false ∧ sampleHandle.open_ = true ∧
    pg_close_result (Obj.result closedHandle)
      = (Except.error ⟨"postgres:connection-already-closed", Obj.result closedHandle⟩,
          Obj.result closedHandle) ∧
    pg_close_result (Obj.result sampleHandle)
      = (Except.ok Obj.null,
          Obj.result { res := PQclear sampleHandle.res, open_ := false, row := sampleHandle.row }) :=
  ⟨rfl, rfl, (pg_close_result_guarded closedHandle).1 rfl,
    (pg_close_result_guarded sampleHandle).2 rfl⟩

/-! ## Registration -/

/-- C9 fails on the code: registering into an empty environment binds the
two type tags and seven primitives; `pg_get_value` is not among the
primitives a caller can reach, and no global is bound to it. -/
theorem register_omits_get_value :
    reachablePrimitives (dfsch_module_postgres_register ⟨[], []⟩)
      = [Primitive.pg_get_names, Primitive.pg_get_row, Primitive.pg_close_result,
          Primitive.pg_step, Primitive.pg_exec, Primitive.pg_finish, Primitive.pg_connect] ∧
    Primitive.pg_get_value ∉ reachablePrimitives (dfsch_module_postgres_register ⟨[], []⟩) ∧
    (dfsch_module_postgres_register ⟨[], []⟩).globals.length = 9 := by
  decide

/-! ## Reading one value -/

/-- C2 fails on the code: with two rows and two fields, row index 2 and
column index 2 both pass the bounds tests of `pg_get_value` and reach the
native accessors, which report the missing cell as null. -/
theorem pg_get_value_accepts_bound :
    PQntuples sampleHandle.res = 2 ∧ PQnfields sampleHandle.res = 2 ∧
    pg_get_value (Obj.result sampleHandle) 0 (some 2)
      = (Except.ok Obj.null, Obj.result sampleHandle) ∧
    pg_get_value (Obj.result sampleHandle) 2 (some 0)
      = (Except.ok Obj.null, Obj.result sampleHandle) :=
  ⟨rfl, rfl, rfl, rfl⟩

/-- C3 fails on the code: with row 1 in bounds and column 5 out of bounds the
column range-error carries the row index 1, not the attempted column 5, next
to the field count 2. -/
theorem pg_get_value_column_payload :
    pg_get_value (Obj.result sampleHandle) 5 (some 1)
      = (Except.error ⟨"postgres:column-number-out-of-range",
            Obj.list [Obj.num 1, Obj.num 2]⟩,
          Obj.result sampleHandle) :=
  rfl

/-! ## Reading the current row -/

/-- C6, as the claim states it, fails: on an open handle whose cursor is on
a valid row, get-current-row with no shape returns the row as a vector and
not the truthy sentinel that advance returns. -/
theorem pg_get_row_default_counterexample :
    sampleHandle.open_ = true ∧ 0 ≤ sampleHandle.row ∧
    sampleHandle.row < PQntuples sampleHandle.res ∧
    (pg_get_row (Obj.result sampleHandle) Obj.null).1
      = Except.ok (Obj.vector [Obj.str "2", Obj.null]) ∧
    (pg_get_row (Obj.result sampleHandle) Obj.null).1 ≠ Except.ok dfsch_sym_true ∧
    (pg_step (Obj.result { sampleHandle with row := 0 }) Obj.null).1
      = Except.ok dfsch_sym_true := by
  refine ⟨rfl, by decide, by decide, rfl, ?_, rfl⟩
  intro h
  cases h

/-- C6 amended: on an open handle whose cursor is on a valid row,
get-current-row returns the row as a vector when no shape or shape "vector"
is requested, as a name-keyed table for shape "hash", and fails with
unknown-format for any other shape, leaving the handle unchanged in every
case; for every requested (non-absent) shape its outcome is the outcome of
the advance call that moved the cursor onto that row. -/
theorem pg_get_row_shapes (r : pg_result_t) (hopen : r.open_ = true) (h0 : 0 ≤ r.row)
    (h1 : r.row < PQntuples r.res) (format : Obj) :
    (format = Obj.null ∨ format = Obj.sym "vector" →
      pg_get_row (Obj.result r) format = (Except.ok (get_row_as_vector r), Obj.result r)) ∧
    (format = Obj.sym "hash" →
      pg_get_row (Obj.result r) format = (Except.ok (get_row_as_hash r), Obj.result r)) ∧
    (format ≠ Obj.null → format ≠ Obj.sym "vector" → format ≠ Obj.sym "hash" →
      pg_get_row (Obj.result r) format
        = (Except.error ⟨"postgres:unknown-format", format⟩, Obj.result r)) ∧
    (pg_get_row (Obj.result r) format).2 = Obj.result r ∧
    (format ≠ Obj.null → ∀ p : pg_result_t, p.open_ = true → p.res = r.res →
      wrapInt (p.row + 1) = r.row →
      pg_step (Obj.result p) format = pg_get_row (Obj.result r) format) := by
  have hr : pg_result (Obj.result r) = Except.ok r := by simp [pg_result, hopen]
  refine ⟨?_, ?_, ?_, ?_, ?_⟩
  · rintro (h | h) <;> subst h <;> simp [pg_get_row, hr, dfsch_compare_symbol]
  · intro h
    subst h
    simp [pg_get_row, hr, dfsch_compare_symbol]
  · intro hn hv hh
    cases format <;> simp_all [pg_get_row, dfsch_compare_symbol]
  · cases format <;> simp [pg_get_row, hr] <;> split_ifs <;> rfl
  · intro hn p hp hres hrow
    have hp2 : pg_result (Obj.result p) = Except.ok p := by simp [pg_result, hp]
    have hpr : ({ p with row := wrapInt (p.row + 1) } : pg_result_t) = r := by
      cases p
      cases r
      simp_all
    cases format <;> simp_all [pg_get_row, pg_step]

theorem pg_get_row_shapes_witness :
    sampleHandle.open_ = true ∧ 0 ≤ sampleHandle.row ∧
    sampleHandle.row < PQntuples sampleHandle.res ∧
    pg_get_row (Obj.result sampleHandle) (Obj.sym "hash")
      = (Except.ok (Obj.hash [("id", Obj.str "2"), ("name", Obj.null)]),
          Obj.result sampleHandle) :=
  ⟨rfl, by decide, by decide,
    (pg_get_row_shapes sampleHandle rfl (by decide) (by decide) (Obj.sym "hash")).2.1 rfl⟩

/-! ## The cursor state machine -/

theorem wrapInt_of_range (x : Int) (h1 : -2147483648 ≤ x) (h2 : x ≤ 2147483647) :
    wrapInt x = x := by
  unfold wrapInt
  omega

theorem PQntuples_nonneg (res : PGresult) : 0 ≤ PQntuples res := by
  simp [PQntuples]

theorem runCalls_snoc (cs : List ResultCall) (c : ResultCall) (o : Obj) :
    runCalls (cs ++ [c]) o = (applyCall c (runCalls cs o)).2 := by
  simp [runCalls, List.foldl_append]

theorem stepN_succ (k : Nat) (o : Obj) :
    stepN (k + 1) o = (pg_step (stepN k o) Obj.null).2 := by
  unfold stepN
  rw [List.replicate_succ', runCalls_snoc]
  rfl

theorem pg_get_row_snd (o format : Obj) : (pg_get_row o format).2 = o := by
  unfold pg_get_row
  split
  · rfl
  · split
    · rfl
    · split_ifs <;> rfl

theorem pg_get_names_snd (o : Obj) : (pg_get_names o).2 = o := by
  unfold pg_get_names
  split
  · rfl
  · split_ifs <;> rfl

theorem pg_get_value_snd (o : Obj) (column : Int) (row : Option Int) :
    (pg_get_value o column row).2 = o := by
  unfold pg_get_value
  split
  · rfl
  · simp only
    split_ifs <;> rfl

/-- Every call on a closed handle fails at the argument conversion and
leaves the handle as it is. -/
theorem applyCall_closed (r : pg_result_t) (hclosed : r.open_ = false) (c : ResultCall) :
    applyCall c (Obj.result r)
      = (Except.error ⟨"postgres:connection-already-closed", Obj.result r⟩, Obj.result r) := by
  have hr : pg_result (Obj.result r)
      = Except.error ⟨"postgres:connection-already-closed", Obj.result r⟩ := by
    simp [pg_result, hclosed]
  cases c <;>
    simp [applyCall, pg_step, pg_get_row, pg_get_names, pg_get_value, pg_close_result, hr]

theorem runCalls_closed (r : pg_result_t) (hclosed : r.open_ = false) (cs : List ResultCall) :
    runCalls cs (Obj.result r) = Obj.result r := by
  induction cs using List.reverseRecOn with
  | nil => rfl
  | append_singleton cs c ih =>
    rw [runCalls_snoc, ih, applyCall_closed r hclosed]

/-- An advance on an open handle whose next row exists. -/
theorem pg_step_in_range (r : pg_result_t) (hopen : r.open_ = true) (hlo : -1 ≤ r.row)
    (hhi : r.row + 1 < PQntuples r.res) (hn : PQntuples r.res ≤ INT_MAX) :
    pg_step (Obj.result r) Obj.null
      = (Except.ok Obj.symTrue, Obj.result { r with row := r.row + 1 }) := by
  have hw : wrapInt (r.row + 1) = r.row + 1 := by
    apply wrapInt_of_range
    · omega
    · unfold INT_MAX at hn
      omega
  simp [pg_step, pg_result, hopen, hw, hhi, dfsch_sym_true]

/-- An advance on an open handle whose cursor is on the last row (or before
the first row of an empty tuple set). -/
theorem pg_step_exhausted (r : pg_result_t) (hopen : r.open_ = true) (hlo : -1 ≤ r.row)
    (hhi : r.row + 1 = PQntuples r.res) (hn : PQntuples r.res ≤ INT_MAX) (format : Obj) :
    pg_step (Obj.result r) format
      = (Except.ok Obj.null,
          Obj.result { res := PQclear r.res, open_ := false, row := r.row + 1 }) := by
  have hw : wrapInt (r.row + 1) = r.row + 1 := by
    apply wrapInt_of_range
    · omega
    · unfold INT_MAX at hn
      omega
  have hnot : ¬ (r.row + 1 < PQntuples r.res) := by omega
  simp [pg_step, pg_result, hopen, hw, hnot]

theorem stepN_open (res : PGresult) (hn : PQntuples res ≤ INT_MAX) (k : Nat)
    (hk : k ≤ res.tuples.length) :
    stepN k (Obj.result (freshResult res))
      = Obj.result { res := res, open_ := true, row := (k : Int) - 1 } := by
  induction k with
  | zero => rfl
  | succ k ih =>
    have hk2 : k ≤ res.tuples.length := by omega
    rw [stepN_succ, ih hk2, pg_step_in_range _ rfl (by simp) (by simp [PQntuples]; omega) hn]
    simp

/-- C1: on the handle freshly created for a tuple set of n rows, each of the
first n advance calls without a shape returns the truthy sentinel and leaves
the handle open (cursor on the row just reached); the next advance returns
absence and leaves the handle closed with the tuple set released; after
that, whatever further calls are made, every advance and every get-value
call fails with the use-after-close error. -/
theorem advance_until_exhausted (res : PGresult) (hn : PQntuples res ≤ INT_MAX) :
    (∀ k : Nat, k < res.tuples.length →
      pg_step (stepN k (Obj.result (freshResult res))) Obj.null
        = (Except.ok dfsch_sym_true, Obj.result { res := res, open_ := true, row := k })) ∧
    pg_step (stepN res.tuples.length (Obj.result (freshResult res))) Obj.null
      = (Except.ok Obj.null,
          Obj.result { res := PQclear res, open_ := false, row := res.tuples.length }) ∧
    (∀ (later : List ResultCall) (format : Obj) (column : Int) (row : Option Int),
      pg_step (runCalls later (stepN (res.tuples.length + 1) (Obj.result (freshResult res))))
          format
        = (Except.error ⟨"postgres:connection-already-closed",
              Obj.result { res := PQclear res, open_ := false, row := res.tuples.length }⟩,
            Obj.result { res := PQclear res, open_ := false, row := res.tuples.length }) ∧
      pg_get_value
          (runCalls later (stepN (res.tuples.length + 1) (Obj.result (freshResult res))))
          column row
        = (Except.error ⟨"postgres:connection-already-closed",
              Obj.result { res := PQclear res, open_ := false, row := res.tuples.length }⟩,
            Obj.result { res := PQclear res, open_ := false, row := res.tuples.length })) := by
  have hlast : pg_step (stepN res.tuples.length (Obj.result (freshResult res))) Obj.null
      = (Except.ok Obj.null,
          Obj.result { res := PQclear res, open_ := false, row := res.tuples.length }) := by
    rw [stepN_open res hn _ (le_refl _),
      pg_step_exhausted _ rfl (by simp) (by simp [PQntuples]) hn]
    simp
  refine ⟨?_, hlast, ?_⟩
  · intro k hk
    rw [stepN_open res hn k (by omega),
      pg_step_in_range _ rfl (by simp) (by simp [PQntuples]; omega) hn]
    simp [dfsch_sym_true]
  · intro later format column row
    rw [stepN_succ, hlast]
    simp only
    rw [runCalls_closed _ rfl]
    exact ⟨applyCall_closed { res := PQclear res, open_ := false, row := res.tuples.length }
        rfl (ResultCall.step format),
      applyCall_closed { res := PQclear res, open_ := false, row := res.tuples.length }
        rfl (ResultCall.get_value column row)⟩

theorem advance_until_exhausted_witness :
    PQntuples sampleResult ≤ INT_MAX ∧
    pg_step (stepN 1 (Obj.result (freshResult sampleResult))) Obj.null
      = (Except.ok dfsch_sym_true,
          Obj.result { res := sampleResult, open_ := true, row := 1 }) ∧
    pg_step (stepN 2 (Obj.result (freshResult sampleResult))) Obj.null
      = (Except.ok Obj.null, Obj.result closedHandle) ∧
    pg_get_value (stepN 3 (Obj.result (freshResult sampleResult))) 0 (some 0)
      = (Except.error ⟨"postgres:connection-already-closed", Obj.result closedHandle⟩,
          Obj.result closedHandle) :=
  ⟨by decide,
   (advance_until_exhausted sampleResult (by decide)).1 1 (by decide),
   (advance_until_exhausted sampleResult (by decide)).2.1,
   ((advance_until_exhausted sampleResult (by decide)).2.2 [] Obj.null 0 (some 0)).2⟩

/-- One call keeps the cursor invariant of a handle around the tuple set
`res`. -/
theorem applyCall_invariant (res : PGresult) (hn : PQntuples res ≤ INT_MAX) (c : ResultCall)
    (r : pg_result_t)
    (hinv : r.open_ = true → r.res = res ∧ -1 ≤ r.row ∧ r.row < PQntuples res) :
    ∃ r2 : pg_result_t, (applyCall c (Obj.result r)).2 = Obj.result r2 ∧
      (r2.open_ = true → r2.res = res ∧ -1 ≤ r2.row ∧ r2.row < PQntuples res) := by
  cases hopen : r.open_ with
  | false =>
    refine ⟨r, ?_, hinv⟩
    rw [applyCall_closed r hopen]
  | true =>
    obtain ⟨hres, hlo, hhi⟩ := hinv hopen
    cases c with
    | get_row format => exact ⟨r, pg_get_row_snd _ _, hinv⟩
    | get_names => exact ⟨r, pg_get_names_snd _, hinv⟩
    | get_value column row => exact ⟨r, pg_get_value_snd _ _ _, hinv⟩
    | close_result =>
      refine ⟨{ res := PQclear r.res, open_ := false, row := r.row }, ?_, ?_⟩
      · simp [applyCall, pg_close_result, pg_result, hopen]
      · intro h
        cases h
    | step format =>
      have hw : wrapInt (r.row + 1) = r.row + 1 := by
        apply wrapInt_of_range
        · omega
        · unfold INT_MAX at hn
          omega
      by_cases hin : r.row + 1 < PQntuples r.res
      · refine ⟨{ r with row := r.row + 1 }, ?_, ?_⟩
        · cases format <;>
            simp [applyCall, pg_step, pg_result, hopen, hw, hin] <;> split_ifs <;> rfl
        · intro _
          refine ⟨hres, by simp; omega, ?_⟩
          rw [← hres]
          exact hin
      · refine ⟨{ res := PQclear r.res, open_ := false, row := r.row + 1 }, ?_, ?_⟩
        · simp [applyCall, pg_step, pg_result, hopen, hw, hin]
        · intro h
          cases h

/-- C10: the handle created by execute for a freshly produced tuple set,
after any sequence of advance (any shape, also one that fails with
unknown-format), get-current-row, get-field-names, get-value and close-result
calls, is still a result handle around the same tuple set, and if it is
marked open its cursor c satisfies -1 <= c < row-count and the tuple set has
not been released; so an open handle with c >= 0 has c < row-count, a valid
row index for the builders. -/
theorem cursor_invariant (res : PGresult) (statement : String) (h : pg_result_t)
    (hmk : (pg_make_result (some res) statement).1 = Except.ok (Obj.result h))
    (hfresh : res.cleared = 0) (hn : PQntuples res ≤ INT_MAX) (cs : List ResultCall) :
    ∃ r : pg_result_t, runCalls cs (Obj.result h) = Obj.result r ∧
      (r.open_ = true →
        -1 ≤ r.row ∧ r.row < PQntuples r.res ∧ r.res.cleared = 0 ∧ r.res = res) ∧
      (r.open_ = true → 0 ≤ r.row → 0 ≤ r.row ∧ r.row < PQntuples r.res) := by
  have hh : h = freshResult res := by
    unfold pg_make_result at hmk
    simp only [PQresultStatus] at hmk
    cases hs : res.status <;> simp [hs] at hmk
    rw [← hmk]
    rfl
  subst hh
  have key : ∃ r : pg_result_t, runCalls cs (Obj.result (freshResult res)) = Obj.result r ∧
      (r.open_ = true → r.res = res ∧ -1 ≤ r.row ∧ r.row < PQntuples res) := by
    induction cs using List.reverseRecOn with
    | nil =>
      refine ⟨freshResult res, rfl, fun _ => ⟨rfl, le_refl _, ?_⟩⟩
      have := PQntuples_nonneg res
      simp only [freshResult]
      omega
    | append_singleton cs c ih =>
      obtain ⟨r, hr, hinv⟩ := ih
      rw [runCalls_snoc, hr]
      exact applyCall_invariant res hn c r hinv
  obtain ⟨r, hr, hinv⟩ := key
  refine ⟨r, hr, ?_, ?_⟩
  · intro ho
    obtain ⟨h1, h2, h3⟩ := hinv ho
    rw [h1]
    exact ⟨h2, h3, hfresh, rfl⟩
  · intro ho h0
    obtain ⟨h1, _, h3⟩ := hinv ho
    rw [h1]
    exact ⟨h0, h3⟩

theorem cursor_invariant_witness :
    (pg_make_result (some sampleResult) "SELECT id, name FROM t").1
      = Except.ok (Obj.result (freshResult sampleResult)) ∧
    sampleResult.cleared = 0 ∧ PQntuples sampleResult ≤ INT_MAX ∧
    ∃ r : pg_result_t,
      runCalls [ResultCall.step Obj.null, ResultCall.get_value 7 none,
          ResultCall.step (Obj.sym "bogus"), ResultCall.get_row (Obj.sym "hash")]
        (Obj.result (freshResult sampleResult)) = Obj.result r ∧
      (r.open_ = true →
        -1 ≤ r.row ∧ r.row < PQntuples r.res ∧ r.res.cleared = 0 ∧ r.res = sampleResult) ∧
      (r.open_ = true → 0 ≤ r.row → 0 ≤ r.row ∧ r.row < PQntuples r.res) :=
  ⟨rfl, rfl, by decide,
    cursor_invariant sampleResult "SELECT id, name FROM t" (freshResult sampleResult) rfl rfl
      (by decide)
      [ResultCall.step Obj.null, ResultCall.get_value 7 none,
        ResultCall.step (Obj.sym "bogus"), ResultCall.get_row (Obj.sym "hash")]⟩

/-! ## Row shapes -/

theorem vectorLoop_succ (res : PGresult) (row : Int) (len n : Nat) :
    vectorLoop res row len (n + 1)
      = if PQgetisnull res row n then vectorLoop res row len n
        else (vectorLoop res row len n).set n (Obj.str (PQgetvalue res row n)) := by
  unfold vectorLoop
  rw [List.range_succ, List.foldl_append]
  simp only [List.foldl_cons, List.foldl_nil]
  cases PQgetisnull res row n <;> simp [dfsch_make_string_cstr, dfsch_vector_set]

theorem vectorLoop_length (res : PGresult) (row : Int) (len n : Nat) :
    (vectorLoop res row len n).length = len := by
  induction n with
  | zero => simp [vectorLoop, dfsch_make_vector]
  | succ n ih =>
    rw [vectorLoop_succ]
    split_ifs
    · exact ih
    · rw [List.length_set]
      exact ih

/-- After the first `n` iterations, position `i` holds the value of field `i`
when `i < n` and the initial fill otherwise. -/
theorem vectorLoop_get (res : PGresult) (row : Int) (len n i : Nat) (hi : i < len) :
    (vectorLoop res row len n)[i]?
      = some (if i < n then
          (if PQgetisnull res row i then Obj.null else Obj.str (PQgetvalue res row i))
        else Obj.null) := by
  induction n with
  | zero => simp [vectorLoop, dfsch_make_vector, List.getElem?_replicate, hi]
  | succ n ih =>
    rw [vectorLoop_succ]
    have hrest : ∀ j : Nat, j ≠ n →
        (if j < n then
            (if PQgetisnull res row j then Obj.null else Obj.str (PQgetvalue res row j))
          else Obj.null)
        = (if j < n + 1 then
            (if PQgetisnull res row j then Obj.null else Obj.str (PQgetvalue res row j))
          else Obj.null) := by
      intro j hj
      by_cases hjn : j < n
      · rw [if_pos hjn, if_pos (Nat.lt_succ_of_lt hjn)]
      · rw [if_neg hjn, if_neg (by omega)]
    cases hnull : PQgetisnull res row n with
    | true =>
      rw [if_pos rfl, ih]
      by_cases hieq : i = n
      · subst hieq
        simp [hnull]
      · rw [hrest i hieq]
    | false =>
      rw [if_neg Bool.false_ne_true, List.getElem?_set]
      by_cases hieq : n = i
      · subst hieq
        simp [vectorLoop_length, hi, hnull]
      · rw [if_neg hieq, ih, hrest i (fun h => hieq h.symm)]

theorem mem_keys_hash_set (h : List (String × Obj)) (k0 : String) (v : Obj) (k : String) :
    k ∈ (dfsch_hash_set h k0 v).map Prod.fst ↔ k = k0 ∨ k ∈ h.map Prod.fst := by
  induction h with
  | nil => simp [dfsch_hash_set]
  | cons b t ih =>
    obtain ⟨k1, v1⟩ := b
    unfold dfsch_hash_set
    by_cases hk : k1 = k0
    · subst hk
      simp
    · simp only [hk, if_false, List.map_cons, List.mem_cons, ih]
      tauto

theorem hash_ref_set_self (h : List (String × Obj)) (k : String) (v : Obj) :
    dfsch_hash_ref (dfsch_hash_set h k v) k = some v := by
  induction h with
  | nil => simp [dfsch_hash_set, dfsch_hash_ref]
  | cons b t ih =>
    obtain ⟨k1, v1⟩ := b
    unfold dfsch_hash_set
    by_cases hk : k1 = k
    · simp [hk, dfsch_hash_ref]
    · simp [hk, dfsch_hash_ref, ih]

theorem hash_ref_set_other (h : List (String × Obj)) (k : String) (v : Obj) (k2 : String)
    (hne : k ≠ k2) :
    dfsch_hash_ref (dfsch_hash_set h k v) k2 = dfsch_hash_ref h k2 := by
  induction h with
  | nil => simp [dfsch_hash_set, dfsch_hash_ref, hne]
  | cons b t ih =>
    obtain ⟨k1, v1⟩ := b
    unfold dfsch_hash_set
    by_cases hk : k1 = k
    · subst hk
      simp [dfsch_hash_ref, hne]
    · by_cases hk2 : k1 = k2
      · subst hk2
        simp [hk, dfsch_hash_ref]
      · simp [hk, hk2, dfsch_hash_ref, ih]

theorem hashLoop_succ (res : PGresult) (row : Int) (n : Nat) :
    hashLoop res row (n + 1)
      = dfsch_hash_set (hashLoop res row n) (PQfname res n)
          (if PQgetisnull res row n then Obj.null else Obj.str (PQgetvalue res row n)) := by
  unfold hashLoop
  rw [List.range_succ, List.foldl_append]
  simp only [List.foldl_cons, List.foldl_nil]
  cases PQgetisnull res row n <;> simp [dfsch_make_string_cstr]

theorem hashLoop_keys (res : PGresult) (row : Int) (n : Nat) (k : String) :
    k ∈ (hashLoop res row n).map Prod.fst ↔ ∃ i : Nat, i < n ∧ PQfname res i = k := by
  induction n with
  | zero => simp [hashLoop]
  | succ n ih =>
    rw [hashLoop_succ, mem_keys_hash_set, ih]
    constructor
    · rintro (h | ⟨i, hi, hk⟩)
      · exact ⟨n, by omega, h.symm⟩
      · exact ⟨i, by omega, hk⟩
    · rintro ⟨i, hi, hk⟩
      by_cases hin : i = n
      · subst hin
        exact Or.inl hk.symm
      · exact Or.inr ⟨i, by omega, hk⟩

theorem hashLoop_ref (res : PGresult) (row : Int) (n i : Nat) (hi : i < n)
    (hlast : ∀ j : Nat, i < j → j < n → PQfname res j ≠ PQfname res i) :
    dfsch_hash_ref (hashLoop res row n) (PQfname res i)
      = some (if PQgetisnull res row i then Obj.null else Obj.str (PQgetvalue res row i)) := by
  induction n with
  | zero => omega
  | succ n ih =>
    rw [hashLoop_succ]
    by_cases hin : i = n
    · subst hin
      exact hash_ref_set_self _ _ _
    · rw [hash_ref_set_other _ _ _ _ (hlast n (by omega) (by omega))]
      exact ih (by omega) (fun j h1 h2 => hlast j h1 (by omega))

theorem PQfname_mem (res : PGresult) (k : String) :
    (∃ i : Nat, i < res.fnames.length ∧ PQfname res i = k) ↔ k ∈ res.fnames := by
  have hname : ∀ i : Nat, ∀ hi : i < res.fnames.length, PQfname res i = res.fnames[i] := by
    intro i hi
    have hnn : ¬ ((i : Int) < 0) := by omega
    simp [PQfname, hnn, List.getElem?_eq_getElem hi]
  rw [List.mem_iff_getElem]
  constructor
  · rintro ⟨i, hi, hk⟩
    exact ⟨i, hi, by rw [← hk, hname i hi]⟩
  · rintro ⟨i, hi, hk⟩
    exact ⟨i, hi, by rw [← hk, hname i hi]⟩

/-- C8, as the claim states it, fails in its hash part: on an open handle
whose cursor is on a valid row of a result with two fields of the same name,
the first field is null, yet the returned table binds that field's key to the
text of the second field and not to absence. -/
theorem row_hash_same_name_counterexample :
    sameNameHandle.open_ = true ∧ 0 ≤ sameNameHandle.row ∧
    sameNameHandle.row < PQntuples sameNameHandle.res ∧
    PQgetisnull sameNameHandle.res sameNameHandle.row 0 = true ∧
    (pg_get_row (Obj.result sameNameHandle) (Obj.sym "hash")).1
      = Except.ok (Obj.hash [("a", Obj.str "x")]) ∧
    dfsch_hash_ref [("a", Obj.str "x")] (PQfname sameNameHandle.res 0)
      = some (Obj.str "x") ∧
    dfsch_hash_ref [("a", Obj.str "x")] (PQfname sameNameHandle.res 0) ≠ some Obj.null := by
  refine ⟨rfl, by decide, by decide, rfl, rfl, rfl, ?_⟩
  intro h
  cases h

/-- C8 amended: on an open handle whose cursor is on a valid row, the row
returned for shape "vector" is a sequence whose length is the field count and
whose i-th element is the text of field i, or absence when field i is null;
the row returned for shape "hash" is a table whose key set is the set of the
result's field names, and a field that no later field shares its name with
(null or not) is bound under its name to its text, or to absence when it is
null. -/
theorem row_builder_shapes (r : pg_result_t) (hopen : r.open_ = true) (h0 : 0 ≤ r.row)
    (_hvalid : r.row < PQntuples r.res) :
    (∃ xs : List Obj,
      (pg_get_row (Obj.result r) (Obj.sym "vector")).1 = Except.ok (Obj.vector xs) ∧
      (xs.length : Int) = PQnfields r.res ∧
      ∀ i : Nat, (i : Int) < PQnfields r.res →
        xs[i]? = some (if PQgetisnull r.res r.row i then Obj.null
          else Obj.str (PQgetvalue r.res r.row i))) ∧
    (∃ kv : List (String × Obj),
      (pg_get_row (Obj.result r) (Obj.sym "hash")).1 = Except.ok (Obj.hash kv) ∧
      (∀ k : String, k ∈ kv.map Prod.fst ↔ k ∈ r.res.fnames) ∧
      (∀ i : Nat, (i : Int) < PQnfields r.res →
        (∀ j : Nat, i < j → (j : Int) < PQnfields r.res →
          PQfname r.res j ≠ PQfname r.res i) →
        dfsch_hash_ref kv (PQfname r.res i)
          = some (if PQgetisnull r.res r.row i then Obj.null
            else Obj.str (PQgetvalue r.res r.row i)))) := by
  have hr : pg_result (Obj.result r) = Except.ok r := by simp [pg_result, hopen]
  have hneg : ¬ r.row < 0 := by omega
  have hF : (PQnfields r.res).toNat = r.res.fnames.length := by simp [PQnfields]
  constructor
  · refine ⟨vectorLoop r.res r.row r.res.fnames.length r.res.fnames.length, ?_, ?_, ?_⟩
    · simp only [pg_get_row, hr, dfsch_compare_symbol, get_row_as_vector, hneg, hF]
      rfl
    · rw [vectorLoop_length]
      rfl
    · intro i hi
      have hi2 : i < r.res.fnames.length := by
        simp only [PQnfields] at hi
        omega
      rw [vectorLoop_get _ _ _ _ _ hi2]
      simp [hi2]
  · refine ⟨hashLoop r.res r.row r.res.fnames.length, ?_, ?_, ?_⟩
    · simp only [pg_get_row, hr, dfsch_compare_symbol, get_row_as_hash, hneg, hF]
      rfl
    · intro k
      rw [hashLoop_keys, PQfname_mem]
    · intro i hi hlast
      have hi2 : i < r.res.fnames.length := by
        simp only [PQnfields] at hi
        omega
      apply hashLoop_ref _ _ _ _ hi2
      intro j hij hj
      exact hlast j hij (by simp only [PQnfields]; omega)

theorem row_builder_shapes_witness :
    sampleHandle.open_ = true ∧ 0 ≤ sampleHandle.row ∧
    sampleHandle.row < PQntuples sampleHandle.res ∧
    (∃ xs : List Obj,
      (pg_get_row (Obj.result sampleHandle) (Obj.sym "vector")).1
        = Except.ok (Obj.vector xs) ∧
      (xs.length : Int) = PQnfields sampleHandle.res ∧
      ∀ i : Nat, (i : Int) < PQnfields sampleHandle.res →
        xs[i]? = some (if PQgetisnull sampleHandle.res sampleHandle.row i then Obj.null
          else Obj.str (PQgetvalue sampleHandle.res sampleHandle.row i))) ∧
    (∃ kv : List (String × Obj),
      (pg_get_row (Obj.result sampleHandle) (Obj.sym "hash")).1 = Except.ok (Obj.hash kv) ∧
      (∀ k : String, k ∈ kv.map Prod.fst ↔ k ∈ ["id", "name"]) ∧
      dfsch_hash_ref kv "name" = some Obj.null) := by
  refine ⟨rfl, by decide, by decide,
    (row_builder_shapes sampleHandle rfl (by decide) (by decide)).1, ?_⟩
  obtain ⟨kv, hkv, hkeys, href⟩ :=
    (row_builder_shapes sampleHandle rfl (by decide) (by decide)).2
  refine ⟨kv, hkv, hkeys, ?_⟩
  have hlast : ∀ j : Nat, 1 < j → (j : Int) < PQnfields sampleHandle.res →
      PQfname sampleHandle.res j ≠ PQfname sampleHandle.res (1 : Nat) := by
    intro j h1 h2
    have h3 : PQnfields sampleHandle.res = 2 := rfl
    rw [h3] at h2
    omega
  exact href 1 (by decide) hlast

end DfschPostgres
